import Mathlib

/-!
Verification of the drift-detection ensemble engine of the repository
(`src/monitoring/advanced_drift_detector.py` and
`src/monitoring/drift/drift_service.py`).

The Python code is shallowly embedded: dataframes become association lists of
named columns over `Option ℚ` (missing values are `none`), scores and weights
become rationals, and Python exceptions become an explicit `Exc` value threaded
through `Except`.  The numeric kernels delegated to scipy / scikit-learn
(`ks_2samp`, the PSI histogram arithmetic, the MMD kernel computation, the
isolation-forest / elliptic-envelope fitting, the cross-validated AUC) are
parameters of the embedding (an `Env` record): the control flow of the detectors —
column iteration, dtype filtering, missing-column lookups, thresholding,
try/except structure — is translated line by line from the source, while the
library calls themselves are opaque functions supplied by the environment.
-/

namespace DriftDetection

/-- A Python exception value.  `keyError` models the `KeyError` raised by a
pandas column lookup on a missing column; `importError` models `ImportError`
(the only exception `_mmd_drift` catches); `generic` models any other
exception, carrying its `str(e)` rendering. -/
inductive Exc where
  | keyError : String → Exc
  | importError : Exc
  | generic : String → Exc
deriving DecidableEq, Repr

/-- Python str(e) as used by the `except Exception as e` handlers. -/
def Exc.str : Exc → String
  | .keyError s => s
  | .importError => "ImportError"
  | .generic s => s

instance {ε α : Type} [DecidableEq ε] [DecidableEq α] : DecidableEq (Except ε α) :=
  fun x y =>
    match x, y with
    | .ok a, .ok b =>
        if h : a = b then isTrue (by rw [h]) else isFalse (fun hc => by cases hc; exact h rfl)
    | .error a, .error b =>
        if h : a = b then isTrue (by rw [h]) else isFalse (fun hc => by cases hc; exact h rfl)
    | .ok _, .error _ => isFalse (fun hc => by cases hc)
    | .error _, .ok _ => isFalse (fun hc => by cases hc)

/-- One pandas column: its dtype string and its values, `none` marking a
missing (NaN) entry removed by `dropna()`. -/
structure Column where
  dtype : String
  values : List (Option ℚ)
deriving DecidableEq, Repr

/-- A pandas dataframe: ordered named columns (column names are unique in
pandas; lookups take the first match). -/
structure DataFrame where
  cols : List (String × Column)
deriving DecidableEq, Repr

/-- Column lookup df[name]: `some` column, or `none` (pandas raises `KeyError`). -/
def DataFrame.lookup (df : DataFrame) (name : String) : Option Column :=
  (df.cols.find? (fun p => p.1 == name)).map Prod.snd

/-- Pandas series.dropna(). -/
def dropna (v : List (Option ℚ)) : List ℚ := v.filterMap id

/-- The dtype test `reference[column].dtype in ["float64", "int64"]`. -/
def numericDtype (d : String) : Bool := d == "float64" || d == "int64"

/-- Python `max` over a nonempty collection (the callers guard emptiness). -/
def listMax : List ℚ → ℚ
  | [] => 0
  | [x] => x
  | x :: y :: rest => max x (listMax (y :: rest))

/-- The result dictionary built by one detector method.  Every detector of the
source sets the `"method"`, `"drift_detected"` and `"drift_score"` keys in
every branch; `"p_values"`, `"psi_scores"` and `"error"` are present only in
some branches, hence `Option`. -/
structure MethodResult where
  method : String
  drift_detected : Bool
  drift_score : ℚ
  p_values : Option (List (String × ℚ)) := none
  psi_scores : Option (List (String × ℚ)) := none
  error : Option String := none
deriving DecidableEq, Repr

/-- Dictionary lookup results.get(m) on the ensemble results dict (insertion-ordered). -/
def lookupRes (results : List (String × MethodResult)) (m : String) : Option MethodResult :=
  (results.find? (fun p => p.1 == m)).map Prod.snd

/-- The final `DriftResult` dataclass.  `metadata` is the literal dictionary
`{"individual_results": results}` built at the end of `_ensemble_detection`,
kept as a keyed association list so that statements about which keys the
metadata carries are faithful. -/
structure DriftResult where
  drift_detected : Bool
  drift_score : ℚ
  drift_type : String
  features_affected : List String
  confidence : ℚ
  metadata : List (String × List (String × MethodResult))
deriving DecidableEq, Repr

/-- The numeric kernels the detectors delegate to scipy / scikit-learn / numpy.
Every kernel may raise (modelled as `Except`): `ks2samp` is
`scipy.stats.ks_2samp` on the two dropna-filtered columns, returning
(statistic, p-value) or raising (e.g. `ValueError` on an empty sample);
`psiScore` is the histogram/PSI arithmetic of lines 100–112 (numpy can raise,
e.g. on empty input to `histogram_bin_edges`); `mmdCompute` covers the
imports, subsampling and kernel computation in the try block of `_mmd_drift`;
`isoRatio` the isolation-forest fit/predict; `covRatio` the elliptic-envelope
fit/predict; `clfAuc` the cross-validated AUC in the try block of
`_classifier_drift`. -/
structure Env where
  ks2samp : List ℚ → List ℚ → Except Exc (ℚ × ℚ)
  psiScore : List ℚ → List ℚ → Except Exc ℚ
  mmdCompute : DataFrame → DataFrame → Except Exc ℚ
  isoRatio : DataFrame → DataFrame → Except Exc ℚ
  covRatio : DataFrame → DataFrame → Except Exc ℚ
  clfAuc : DataFrame → DataFrame → String → Except Exc ℚ

/-- The column loop of `_ks_test_drift` (lines 75–81): iterate the reference
columns in order; for each numeric one, look the same name up in `current`
(pandas raises `KeyError` when absent), call `ks_2samp` (which may itself
raise — nothing in the method catches it) and record (statistic, p-value). -/
def ks_test_loop (ks2 : List ℚ → List ℚ → Except Exc (ℚ × ℚ)) (current : DataFrame) :
    List (String × Column) → Except Exc (List (String × ℚ) × List (String × ℚ))
  | [] => .ok ([], [])
  | (name, col) :: rest =>
    if numericDtype col.dtype then
      match current.lookup name with
      | none => .error (.keyError name)
      | some ccol =>
        match ks2 (dropna col.values) (dropna ccol.values) with
        | .error e => .error e
        | .ok sp =>
          match ks_test_loop ks2 current rest with
          | .error e => .error e
          | .ok (ss, ps) => .ok ((name, sp.1) :: ss, (name, sp.2) :: ps)
    else ks_test_loop ks2 current rest

/-- Method `_ks_test_drift` (lines 70–91). -/
def ks_test_drift (ks2 : List ℚ → List ℚ → Except Exc (ℚ × ℚ))
    (reference current : DataFrame) : Except Exc MethodResult :=
  match ks_test_loop ks2 current reference.cols with
  | .error e => .error e
  | .ok (drift_scores, p_values) =>
    .ok { method := "ks_test"
          drift_detected := p_values.any (fun p => p.2 < 1/20)
          drift_score := if drift_scores.isEmpty then 0 else listMax (drift_scores.map Prod.snd)
          p_values := some p_values }

/-- The column loop of `_psi_drift` (lines 97–112): like the KS loop, the
pandas lookup may raise `KeyError` and the numpy arithmetic may itself raise;
nothing in the method catches either. -/
def psi_loop (psiScore : List ℚ → List ℚ → Except Exc ℚ) (current : DataFrame) :
    List (String × Column) → Except Exc (List (String × ℚ))
  | [] => .ok []
  | (name, col) :: rest =>
    if numericDtype col.dtype then
      match current.lookup name with
      | none => .error (.keyError name)
      | some ccol =>
        match psiScore (dropna col.values) (dropna ccol.values) with
        | .error e => .error e
        | .ok s =>
          match psi_loop psiScore current rest with
          | .error e => .error e
          | .ok ss => .ok ((name, s) :: ss)
    else psi_loop psiScore current rest

/-- Method `_psi_drift` (lines 93–123). -/
def psi_drift (psiScore : List ℚ → List ℚ → Except Exc ℚ) (reference current : DataFrame) :
    Except Exc MethodResult :=
  match psi_loop psiScore current reference.cols with
  | .error e => .error e
  | .ok psi_scores =>
    .ok { method := "psi"
          drift_detected := psi_scores.any (fun p => p.2 > 1/10)
          drift_score := if psi_scores.isEmpty then 0 else listMax (psi_scores.map Prod.snd)
          psi_scores := some psi_scores }

/-- Method `_mmd_drift` (lines 125–154): the `try` block is `compute`; only
`ImportError` is caught (`except ImportError:`), every other exception
propagates. -/
def mmd_drift (compute : DataFrame → DataFrame → Except Exc ℚ)
    (reference current : DataFrame) : Except Exc MethodResult :=
  match compute reference current with
  | .ok mmd =>
      .ok { method := "mmd", drift_detected := mmd > 1/20, drift_score := mmd }
  | .error .importError =>
      .ok { method := "mmd", drift_detected := false, drift_score := 0,
            error := some "scikit-learn not available" }
  | .error e => .error e

/-- Method `_isolation_forest_drift` (lines 156–172): no try/except at all, so any
exception from fitting or predicting propagates. -/
def isolation_forest_drift (ratio : DataFrame → DataFrame → Except Exc ℚ)
    (reference current : DataFrame) : Except Exc MethodResult :=
  match ratio reference current with
  | .error e => .error e
  | .ok anomaly_ratio =>
      .ok { method := "isolation_forest", drift_detected := anomaly_ratio > 3/20,
            drift_score := anomaly_ratio }

/-- Method `_covariance_drift` (lines 174–196): `except Exception as e` catches
everything and returns a zero-score result with `error = str(e)`. -/
def covariance_drift (ratio : DataFrame → DataFrame → Except Exc ℚ)
    (reference current : DataFrame) : MethodResult :=
  match ratio reference current with
  | .ok outlier_ratio =>
      { method := "covariance_drift", drift_detected := outlier_ratio > 1/5,
        drift_score := outlier_ratio }
  | .error e =>
      { method := "covariance_drift", drift_detected := false, drift_score := 0,
        error := some e.str }

/-- Method `_classifier_drift` (lines 198–237): `except Exception as e` catches
everything. -/
def classifier_drift (auc : DataFrame → DataFrame → String → Except Exc ℚ)
    (reference current : DataFrame) (target_column : String) : MethodResult :=
  match auc reference current target_column with
  | .ok mean_auc =>
      { method := "classifier_drift", drift_detected := mean_auc > 7/10,
        drift_score := mean_auc }
  | .error e =>
      { method := "classifier_drift", drift_detected := false, drift_score := 0,
        error := some e.str }

/-- The `weights` dictionary local to `_ensemble_detection` (lines 245–252)
together with the `.get(method, 0.1)` default. -/
def methodWeight (m : String) : ℚ :=
  if m = "ks_test" then 1/5
  else if m = "psi" then 1/4
  else if m = "mmd" then 1/5
  else if m = "isolation_forest" then 3/20
  else if m = "covariance_drift" then 1/10
  else if m = "classifier_drift" then 1/10
  else 1/10

/-!
The loop of `_ensemble_detection` (lines 260–274) updates four independent
accumulators (`drift_votes`, `weighted_score`, `total_weight`,
`features_affected`) over `results.items()`.  They are embedded as four
separate folds over the same list; since no accumulator feeds another, the
combined single pass of the source computes exactly these values.  Every
result dictionary built by the detectors carries the `"drift_score"` key, so
the `if "drift_score" in result` guard of lines 265–267 is always taken.
-/

/-- Accumulator `drift_votes` (lines 261–262). -/
def driftVotes : List (String × MethodResult) → ℚ
  | [] => 0
  | p :: rest => (if p.2.drift_detected then methodWeight p.1 else 0) + driftVotes rest

/-- Accumulator `weighted_score` (line 266). -/
def weightedScore : List (String × MethodResult) → ℚ
  | [] => 0
  | p :: rest => p.2.drift_score * methodWeight p.1 + weightedScore rest

/-- Accumulator `total_weight` (line 267). -/
def totalWeight : List (String × MethodResult) → ℚ
  | [] => 0
  | p :: rest => methodWeight p.1 + totalWeight rest

/-- Python `set.update` on an insertion-ordered duplicate-free list. -/
def setUpdate (s : List String) (new : List String) : List String :=
  new.foldl (fun acc f => if f ∈ acc then acc else acc ++ [f]) s

/-- Accumulator `features_affected` (lines 270–274): union of the columns
whose PSI score exceeds 0.1, over the results that carry `"psi_scores"`. -/
def featuresAffected : List (String × MethodResult) → List String → List String
  | [], acc => acc
  | p :: rest, acc =>
      featuresAffected rest
        (match p.2.psi_scores with
         | some scores => setUpdate acc ((scores.filter (fun q => q.2 > 1/10)).map Prod.fst)
         | none => acc)

/-- Method `_determine_drift_type` (lines 292–314).  `reference` and `current` are
parameters of the source method but are never read. -/
def determine_drift_type (results : List (String × MethodResult))
    (_reference _current : DataFrame) : String :=
  let covariate_drift := (["ks_test", "psi", "mmd"] : List String).any
    (fun m => match lookupRes results m with
              | some r => r.drift_detected
              | none => false)
  let concept_drift := match lookupRes results "classifier_drift" with
    | some r => r.drift_detected
    | none => false
  if covariate_drift && concept_drift then "covariate_and_concept_drift"
  else if covariate_drift then "covariate_drift"
  else if concept_drift then "concept_drift"
  else "no_drift"

/-- The `MultiModalDriftDetector` object: its only state is the `config`
dictionary stored by `__init__` (modelled as a method-name → weight map, the
shape `DetectorConfig` gives it). -/
structure MultiModalDriftDetector where
  config : List (String × ℚ)
deriving DecidableEq, Repr

/-- Method `_ensemble_detection` (lines 239–290).  Note that the body never reads
`self.config`: the weights are the hard-coded `weights` literal. -/
def MultiModalDriftDetector.ensemble_detection (_self : MultiModalDriftDetector)
    (results : List (String × MethodResult))
    (reference current : DataFrame) : DriftResult :=
  let drift_votes := driftVotes results
  let weighted_score := weightedScore results
  let total_weight := totalWeight results
  let ensemble_score := if total_weight > 0 then weighted_score / total_weight else 0
  { drift_detected := drift_votes > 1/2
    drift_score := ensemble_score
    drift_type := determine_drift_type results reference current
    features_affected := featuresAffected results []
    confidence := min ensemble_score 1
    metadata := [("individual_results", results)] }

/-- Method `detect_drift` (lines 39–68): run the five unconditional detectors in
order, add `classifier_drift` only under the truthiness test
`if target_column:` (skipped for `None` and for the empty string), then
aggregate.  An uncaught exception from any detector propagates. -/
def MultiModalDriftDetector.detect_drift (self : MultiModalDriftDetector) (env : Env)
    (reference_data current_data : DataFrame) (target_column : Option String) :
    Except Exc DriftResult := do
  let ks ← ks_test_drift env.ks2samp reference_data current_data
  let psi ← psi_drift env.psiScore reference_data current_data
  let mmd ← mmd_drift env.mmdCompute reference_data current_data
  let iso ← isolation_forest_drift env.isoRatio reference_data current_data
  let cov := covariance_drift env.covRatio reference_data current_data
  let base := [("ks_test", ks), ("psi", psi), ("mmd", mmd),
               ("isolation_forest", iso), ("covariance_drift", cov)]
  let results :=
    match target_column with
    | some t =>
        if t.isEmpty then base
        else base ++ [("classifier_drift",
                       classifier_drift env.clfAuc reference_data current_data t)]
    | none => base
  pure (self.ensemble_detection results reference_data current_data)

/-- Python truthiness of the optional `target_column` argument. -/
def pyTruthy : Option String → Bool
  | none => false
  | some s => !s.isEmpty

/-- Substring containment over the character lists of two strings, i.e. the
Python `in` operator on strings. -/
def containsList (needle : List Char) : List Char → Bool
  | [] => needle.isEmpty
  | c :: rest => needle.isPrefixOf (c :: rest) || containsList needle rest

/-- Python `needle in haystack` on strings. -/
def strContains (needle haystack : String) : Bool :=
  containsList needle.data haystack.data

/-- Method `DriftDetectionService.generate_recommendation`
(`drift_service.py`, lines 139–166). -/
def generate_recommendation (result : DriftResult) : String :=
  if !result.drift_detected then
    "No action needed. Model performance is stable."
  else
    let recommendations : List String := []
    let recommendations :=
      if strContains "covariate_drift" result.drift_type then
        recommendations ++
          ["Retrain model with new data distribution. " ++
           toString result.features_affected.length ++ " features affected."]
      else recommendations
    let recommendations :=
      if strContains "concept_drift" result.drift_type then
        recommendations ++
          ["Consider updating model architecture or features to adapt to concept drift."]
      else recommendations
    let recommendations :=
      if result.drift_score > 4/5 then
        recommendations ++
          ["URGENT: Significant drift detected. Consider immediate model retraining and evaluation."]
      else recommendations
    let recommendations :=
      if !result.features_affected.isEmpty then
        recommendations ++
          ["Focus on features: " ++ String.intercalate ", " (result.features_affected.take 5)]
      else recommendations
    if recommendations.isEmpty then "Monitor closely."
    else String.intercalate " | " recommendations

/-- The recommendation rules of `generate_recommendation` transcribed from its
observed behaviour on the four drift-type labels `_determine_drift_type` can
produce (a spec-side reformulation used for the refinement proof): the rules
fire only when `drift_detected` is true; the label `covariate_drift` yields
the retrain message; `concept_drift` and the combined label yield the update
message (the Python substring test `"covariate_drift" in
"covariate_and_concept_drift"` is false, so the combined label does not yield
the retrain message); the urgency sentence is appended after the type
messages when `drift_score > 0.8`; the focus-features sentence naming at most
5 features comes last when `features_affected` is nonempty. -/
def recommendation_spec (result : DriftResult) : String :=
  if !result.drift_detected then
    "No action needed. Model performance is stable."
  else
    let typeMsgs : List String :=
      if result.drift_type = "covariate_drift" then
        ["Retrain model with new data distribution. " ++
         toString result.features_affected.length ++ " features affected."]
      else if result.drift_type = "concept_drift" ∨
              result.drift_type = "covariate_and_concept_drift" then
        ["Consider updating model architecture or features to adapt to concept drift."]
      else []
    let msgs := typeMsgs
      ++ (if result.drift_score > 4/5 then
            ["URGENT: Significant drift detected. Consider immediate model retraining and evaluation."]
          else [])
      ++ (if !result.features_affected.isEmpty then
            ["Focus on features: " ++ String.intercalate ", " (result.features_affected.take 5)]
          else [])
    if msgs.isEmpty then "Monitor closely."
    else String.intercalate " | " msgs

/-- The response model of the service endpoint. -/
structure DriftDetectionResponse where
  drift_detected : Bool
  drift_score : ℚ
  drift_type : String
  features_affected : List String
  confidence : ℚ
  recommendation : String
deriving DecidableEq, Repr

/-- Method `DriftDetectionService.detect_drift` (`drift_service.py`, lines 52–88),
restricted to its computational content: the reference dataframe has been
resolved (cache / MLflow are external), the metrics and MLflow logging are
external side effects, and — decisively — the call at line 70 passes no
`target_column` to the detector. -/
def service_detect_drift (env : Env) (detector : MultiModalDriftDetector)
    (reference_df current_df : DataFrame) : Except Exc DriftDetectionResponse := do
  let result ← detector.detect_drift env reference_df current_df none
  pure { drift_detected := result.drift_detected
         drift_score := result.drift_score
         drift_type := result.drift_type
         features_affected := result.features_affected
         confidence := result.confidence
         recommendation := generate_recommendation result }

/-- Claim-side reading of the `drift_detected` flag of one method in a results
dictionary (false when the method is absent). -/
def methodFlag (results : List (String × MethodResult)) (m : String) : Bool :=
  match lookupRes results m with
  | some q => q.drift_detected
  | none => false

/-- The drift-type label exactly as the specification states it: covariate
component = any of ks_test/psi/mmd detected, concept component = the
classifier detector is present and detected, then the four-way branch.  A
spec-side reformulation of `_determine_drift_type`, used for the refinement
proof. -/
def claimDriftType (results : List (String × MethodResult)) : String :=
  let covariate := methodFlag results "ks_test" || methodFlag results "psi"
    || methodFlag results "mmd"
  let concept := methodFlag results "classifier_drift"
  if covariate && concept then "covariate_and_concept_drift"
  else if covariate then "covariate_drift"
  else if concept then "concept_drift"
  else "no_drift"

/-! ### Concrete fixtures used by witnesses and counterexamples -/

/-- An environment in which every numeric kernel succeeds and reports no
drift signal. -/
def envOk : Env :=
  { ks2samp := fun _ _ => .ok (0, 1)
    psiScore := fun _ _ => .ok 0
    mmdCompute := fun _ _ => .ok 0
    isoRatio := fun _ _ => .ok 0
    covRatio := fun _ _ => .ok 0
    clfAuc := fun _ _ _ => .ok 0 }

/-- Environment `envOk` except that the isolation-forest fitting routine raises (as
`IsolationForest.fit` does on NaN-containing or non-numeric input). -/
def envIsoFail : Env := { envOk with isoRatio := fun _ _ => .error (.generic "singular matrix") }

/-- Environment `envOk` except that the PSI arithmetic yields 5 for every column — the
count-based PSI of lines 100–112 easily exceeds 1 on shifted data. -/
def envPsiBig : Env := { envOk with psiScore := fun _ _ => .ok 5 }

/-- A one-column numeric dataframe. -/
def dfEx : DataFrame := ⟨[("a", ⟨"float64", [some 1, some 2, some 3]⟩)]⟩

/-- A spare column used to extend a dataframe. -/
def colEx : Column := ⟨"float64", [some 4, some 5]⟩

/-- A detector with empty configuration. -/
def dEx : MultiModalDriftDetector := ⟨[]⟩

/-- A detector whose configuration maps the `psi` method to weight 0. -/
def dPsiZero : MultiModalDriftDetector := ⟨[("psi", 0)]⟩

/-- A reference dataframe with the numeric column `a`, paired below with a
current dataframe lacking that column. -/
def refOnly : DataFrame := ⟨[("a", ⟨"float64", [some 1, some 2]⟩)]⟩

/-- An empty current dataframe (no columns at all). -/
def curNone : DataFrame := ⟨[]⟩

/-- The per-method results of running `detect_drift` under `envOk` on
`(dfEx, dfEx)` with no target column. -/
def resultsOkEx : List (String × MethodResult) :=
  [("ks_test", { method := "ks_test", drift_detected := false, drift_score := 0,
                 p_values := some [("a", 1)] }),
   ("psi", { method := "psi", drift_detected := false, drift_score := 0,
             psi_scores := some [("a", 0)] }),
   ("mmd", { method := "mmd", drift_detected := false, drift_score := 0 }),
   ("isolation_forest", { method := "isolation_forest", drift_detected := false,
                          drift_score := 0 }),
   ("covariance_drift", { method := "covariance_drift", drift_detected := false,
                          drift_score := 0 })]

/-- The `DriftResult` of running `detect_drift` under `envOk` on
`(dfEx, dfEx)` with no target column. -/
def rEx : DriftResult :=
  { drift_detected := false, drift_score := 0, drift_type := "no_drift",
    features_affected := [], confidence := 0,
    metadata := [("individual_results", resultsOkEx)] }

/-- The per-method results of running `detect_drift` under `envPsiBig` on
`(dfEx, dfEx)` with no target column. -/
def resultsPsiBig : List (String × MethodResult) :=
  [("ks_test", { method := "ks_test", drift_detected := false, drift_score := 0,
                 p_values := some [("a", 1)] }),
   ("psi", { method := "psi", drift_detected := true, drift_score := 5,
             psi_scores := some [("a", 5)] }),
   ("mmd", { method := "mmd", drift_detected := false, drift_score := 0 }),
   ("isolation_forest", { method := "isolation_forest", drift_detected := false,
                          drift_score := 0 }),
   ("covariance_drift", { method := "covariance_drift", drift_detected := false,
                          drift_score := 0 })]

/-- The `DriftResult` of running `detect_drift` under `envPsiBig` on
`(dfEx, dfEx)`: its `drift_score` is `(5 * 1/4) / (9/10) = 25/18 > 1`. -/
def rPsiBig : DriftResult :=
  { drift_detected := false, drift_score := 25/18, drift_type := "covariate_drift",
    features_affected := ["a"], confidence := 1,
    metadata := [("individual_results", resultsPsiBig)] }

/-- An error-annotated method result of the shape every `except` branch of the
detectors produces: `drift_detected = False`, `drift_score = 0.0`, `error`
set. -/
def errR (m : String) : MethodResult :=
  { method := m, drift_detected := false, drift_score := 0, error := some "failed" }

/-- An error-free zero-score method result, as produced by a method that ran
and found nothing. -/
def okR (m : String) : MethodResult :=
  { method := m, drift_detected := false, drift_score := 0 }

/-- A results dictionary in which all six methods errored. -/
def rsAllErr : List (String × MethodResult) :=
  [("ks_test", errR "ks_test"), ("psi", errR "psi"), ("mmd", errR "mmd"),
   ("isolation_forest", errR "isolation_forest"),
   ("covariance_drift", errR "covariance_drift"),
   ("classifier_drift", errR "classifier_drift")]

/-- A results dictionary in which all six methods ran cleanly and reported no
drift. -/
def rsAllOk : List (String × MethodResult) :=
  [("ks_test", okR "ks_test"), ("psi", okR "psi"), ("mmd", okR "mmd"),
   ("isolation_forest", okR "isolation_forest"),
   ("covariance_drift", okR "covariance_drift"),
   ("classifier_drift", okR "classifier_drift")]

/-- A drift-voting method result with a chosen flag. -/
def votedRes (m : String) (b : Bool) : MethodResult :=
  { method := m, drift_detected := b, drift_score := 1/2 }

/-- ks_test, psi and mmd all vote drift (votes = 0.2 + 0.25 + 0.2 = 0.65). -/
def rsVotesA : List (String × MethodResult) :=
  [("ks_test", votedRes "ks_test" true), ("psi", votedRes "psi" true),
   ("mmd", votedRes "mmd" true)]

/-- As `rsVotesA` but with the `psi` vote flipped off (votes = 0.4). -/
def rsVotesB : List (String × MethodResult) :=
  [("ks_test", votedRes "ks_test" true), ("psi", votedRes "psi" false),
   ("mmd", votedRes "mmd" true)]

/-- A detected covariate-drift result with `drift_score > 0.8` and one
affected feature. -/
def rC7 : DriftResult :=
  { drift_detected := true, drift_score := 9/10, drift_type := "covariate_drift",
    features_affected := ["a"], confidence := 9/10, metadata := [] }

/-- A detected concept-drift result with a low score and no affected
features. -/
def rW7 : DriftResult :=
  { drift_detected := true, drift_score := 0, drift_type := "concept_drift",
    features_affected := [], confidence := 0, metadata := [] }

/-- The service response for `envOk` on `(dfEx, dfEx)`. -/
def respEx : DriftDetectionResponse :=
  { drift_detected := false, drift_score := 0, drift_type := "no_drift",
    features_affected := [], confidence := 0,
    recommendation := "No action needed. Model performance is stable." }

/-! ### Helper lemmas about the ensemble accumulators -/

theorem methodWeight_pos (m : String) : 0 < methodWeight m := by
  unfold methodWeight
  split_ifs <;> norm_num

theorem driftVotes_skips_flagless (results : List (String × MethodResult))
    (herr : ∀ p ∈ results, p.2.error.isSome = true → p.2.drift_detected = false) :
    driftVotes results = driftVotes (results.filter (fun p => p.2.error.isNone)) := by
  induction results with
  | nil => rfl
  | cons p rest ih =>
    have hrest : ∀ q ∈ rest, q.2.error.isSome = true → q.2.drift_detected = false :=
      fun q hq => herr q (List.mem_cons_of_mem p hq)
    cases hp : p.2.error with
    | none =>
      simp only [driftVotes, List.filter_cons, hp, Option.isNone_none, ih hrest]
    | some s =>
      have hd : p.2.drift_detected = false :=
        herr p (List.mem_cons_self p rest) (by simp [hp])
      simp [driftVotes, List.filter_cons, hp, hd, ih hrest]

theorem weightedScore_skips_zeroed (results : List (String × MethodResult))
    (herr : ∀ p ∈ results, p.2.error.isSome = true → p.2.drift_score = 0) :
    weightedScore results = weightedScore (results.filter (fun p => p.2.error.isNone)) := by
  induction results with
  | nil => rfl
  | cons p rest ih =>
    have hrest : ∀ q ∈ rest, q.2.error.isSome = true → q.2.drift_score = 0 :=
      fun q hq => herr q (List.mem_cons_of_mem p hq)
    cases hp : p.2.error with
    | none =>
      simp only [weightedScore, List.filter_cons, hp, Option.isNone_none, ih hrest]
    | some s =>
      have hd : p.2.drift_score = 0 :=
        herr p (List.mem_cons_self p rest) (by simp [hp])
      simp [weightedScore, List.filter_cons, hp, hd, ih hrest]

theorem totalWeight_split_on_error (results : List (String × MethodResult)) :
    totalWeight results = totalWeight (results.filter (fun p => p.2.error.isNone))
      + totalWeight (results.filter (fun p => p.2.error.isSome)) := by
  induction results with
  | nil => simp [totalWeight]
  | cons p rest ih =>
    cases hp : p.2.error <;>
      simp [totalWeight, List.filter_cons, hp, ih] <;> ring

theorem driftVotes_of_all_false (results : List (String × MethodResult))
    (h : ∀ p ∈ results, p.2.drift_detected = false) : driftVotes results = 0 := by
  induction results with
  | nil => rfl
  | cons p rest ih =>
    have hp := h p (List.mem_cons_self p rest)
    have := ih (fun q hq => h q (List.mem_cons_of_mem p hq))
    simp [driftVotes, hp, this]

theorem weightedScore_of_all_zero (results : List (String × MethodResult))
    (h : ∀ p ∈ results, p.2.drift_score = 0) : weightedScore results = 0 := by
  induction results with
  | nil => rfl
  | cons p rest ih =>
    have hp := h p (List.mem_cons_self p rest)
    have := ih (fun q hq => h q (List.mem_cons_of_mem p hq))
    simp [weightedScore, hp, this]

/-! ### C1 — error handling in the ensemble aggregation -/

/-- C1, counterexample.  The claim says a method result with `error` set
contributes neither its vote nor its score-and-weight to the accumulators,
i.e. the accumulators are unchanged when the errored entries are dropped.
This is false for `total_weight`: the loop at lines 265–267 guards only on
the presence of the `"drift_score"` key, which every error-annotated result
(here the `_mmd_drift` `ImportError` result, `drift_score = 0.0`,
`error` set) also carries, so the weight (0.2) of the errored method still enters
the score denominator. -/
theorem ensemble_error_exclusion_counterexample :
    (errR "mmd").error.isSome = true ∧
    ¬ totalWeight [("mmd", errR "mmd")] =
        totalWeight (List.filter (fun p => p.2.error.isNone) [("mmd", errR "mmd")]) := by
  constructor
  · rfl
  · simp [totalWeight, List.filter_cons, errR, methodWeight]

/-- C1, amended.  Error-annotated results never add to `drift_votes` or
`weighted_score` — but only because every `except` branch of the detectors
sets `drift_detected = False` and `drift_score = 0.0` (the aggregator itself
never inspects `error`); their weights do remain in `total_weight`, the
denominator of the ensemble score.  The decision formulas are as claimed:
`ensemble_drift = drift_votes > 0.5` and
`ensemble_score = weighted_score / total_weight` when `total_weight > 0`,
else 0. -/
theorem ensemble_error_handling_amended (results : List (String × MethodResult))
    (herr : ∀ p ∈ results, p.2.error.isSome = true →
      p.2.drift_detected = false ∧ p.2.drift_score = 0) :
    driftVotes results = driftVotes (results.filter (fun p => p.2.error.isNone)) ∧
    weightedScore results = weightedScore (results.filter (fun p => p.2.error.isNone)) ∧
    totalWeight results = totalWeight (results.filter (fun p => p.2.error.isNone))
      + totalWeight (results.filter (fun p => p.2.error.isSome)) ∧
    ∀ (d : MultiModalDriftDetector) (ref cur : DataFrame),
      (d.ensemble_detection results ref cur).drift_detected
          = decide (driftVotes results > 1/2) ∧
      (d.ensemble_detection results ref cur).drift_score
          = (if totalWeight results > 0 then weightedScore results / totalWeight results
             else 0) := by
  refine ⟨driftVotes_skips_flagless results (fun p hp he => (herr p hp he).1),
          weightedScore_skips_zeroed results (fun p hp he => (herr p hp he).2),
          totalWeight_split_on_error results,
          fun d ref cur => ⟨rfl, rfl⟩⟩

/-- C1, witness: a mixed results dictionary (one clean ks_test result, one
errored mmd result). -/
theorem ensemble_error_handling_amended_witness :
    driftVotes [("ks_test", okR "ks_test"), ("mmd", errR "mmd")]
      = driftVotes (List.filter (fun p => p.2.error.isNone)
          [("ks_test", okR "ks_test"), ("mmd", errR "mmd")]) ∧
    weightedScore [("ks_test", okR "ks_test"), ("mmd", errR "mmd")]
      = weightedScore (List.filter (fun p => p.2.error.isNone)
          [("ks_test", okR "ks_test"), ("mmd", errR "mmd")]) ∧
    totalWeight [("ks_test", okR "ks_test"), ("mmd", errR "mmd")]
      = totalWeight (List.filter (fun p => p.2.error.isNone)
          [("ks_test", okR "ks_test"), ("mmd", errR "mmd")])
        + totalWeight (List.filter (fun p => p.2.error.isSome)
          [("ks_test", okR "ks_test"), ("mmd", errR "mmd")]) ∧
    (dEx.ensemble_detection [("ks_test", okR "ks_test"), ("mmd", errR "mmd")] dfEx dfEx).drift_detected
        = decide (driftVotes [("ks_test", okR "ks_test"), ("mmd", errR "mmd")] > 1/2) ∧
    (dEx.ensemble_detection [("ks_test", okR "ks_test"), ("mmd", errR "mmd")] dfEx dfEx).drift_score
        = (if totalWeight [("ks_test", okR "ks_test"), ("mmd", errR "mmd")] > 0 then
             weightedScore [("ks_test", okR "ks_test"), ("mmd", errR "mmd")]
               / totalWeight [("ks_test", okR "ks_test"), ("mmd", errR "mmd")]
           else 0) := by
  have h := ensemble_error_handling_amended [("ks_test", okR "ks_test"), ("mmd", errR "mmd")]
    (by intro p hp
        simp only [List.mem_cons, List.not_mem_nil, or_false] at hp
        rcases hp with h | h <;> subst h <;> simp [okR, errR])
  exact ⟨h.1, h.2.1, h.2.2.1, (h.2.2.2 dEx dfEx dfEx).1, (h.2.2.2 dEx dfEx dfEx).2⟩

/-! ### C8 — behaviour when every method errored -/

/-- C8, counterexample.  When every method errored the aggregator does return
`ensemble_score = 0` and `drift_detected = false`, but the metadata it
attaches is exactly `{"individual_results": results}` — the same single key a
fully successful no-drift run produces, with identical top-level score and
flag.  There is no dedicated metadata flag marking total method failure; the
only trace is the per-method `error` strings inside `individual_results`. -/
theorem total_failure_flag_counterexample :
    (dEx.ensemble_detection rsAllErr dfEx dfEx).drift_score = 0 ∧
    (dEx.ensemble_detection rsAllErr dfEx dfEx).drift_detected = false ∧
    (dEx.ensemble_detection rsAllErr dfEx dfEx).metadata.map Prod.fst
      = ["individual_results"] ∧
    (dEx.ensemble_detection rsAllOk dfEx dfEx).metadata.map Prod.fst
      = ["individual_results"] ∧
    (dEx.ensemble_detection rsAllErr dfEx dfEx).drift_detected
      = (dEx.ensemble_detection rsAllOk dfEx dfEx).drift_detected ∧
    (dEx.ensemble_detection rsAllErr dfEx dfEx).drift_score
      = (dEx.ensemble_detection rsAllOk dfEx dfEx).drift_score := by
  simp [MultiModalDriftDetector.ensemble_detection, rsAllErr, rsAllOk, errR, okR,
        driftVotes, weightedScore, totalWeight, methodWeight]

/-- C8, amended.  If every recorded method result is error-annotated (hence,
by the shape of every `except` branch, has `drift_detected = False` and
`drift_score = 0.0`), the aggregator returns `ensemble_score = 0` and
`drift_detected = false`; its metadata is exactly
`{"individual_results": results}` — total failure is distinguishable from a
confirmed no-drift only by inspecting the per-method `error` fields inside
it, not by any dedicated flag. -/
theorem all_methods_errored_amended (results : List (String × MethodResult))
    (h : ∀ p ∈ results, p.2.error.isSome = true ∧
      p.2.drift_detected = false ∧ p.2.drift_score = 0)
    (d : MultiModalDriftDetector) (ref cur : DataFrame) :
    (d.ensemble_detection results ref cur).drift_score = 0 ∧
    (d.ensemble_detection results ref cur).drift_detected = false ∧
    (d.ensemble_detection results ref cur).metadata = [("individual_results", results)] := by
  have hws : weightedScore results = 0 :=
    weightedScore_of_all_zero results (fun p hp => (h p hp).2.2)
  have hdv : driftVotes results = 0 :=
    driftVotes_of_all_false results (fun p hp => (h p hp).2.1)
  refine ⟨?_, ?_, rfl⟩
  · show (if totalWeight results > 0 then weightedScore results / totalWeight results
          else 0) = 0
    rw [hws]
    split_ifs <;> simp
  · show decide (driftVotes results > 1/2) = false
    rw [hdv]
    simp

/-- C8, witness: the all-errored results dictionary `rsAllErr`. -/
theorem all_methods_errored_amended_witness :
    (dEx.ensemble_detection rsAllErr dfEx dfEx).drift_score = 0 ∧
    (dEx.ensemble_detection rsAllErr dfEx dfEx).drift_detected = false ∧
    (dEx.ensemble_detection rsAllErr dfEx dfEx).metadata
      = [("individual_results", rsAllErr)] :=
  all_methods_errored_amended rsAllErr
    (by intro p hp
        simp only [rsAllErr, List.mem_cons, List.not_mem_nil, or_false] at hp
        rcases hp with h | h | h | h | h | h <;> subst h <;> simp [errR])
    dEx dfEx dfEx

/-! ### C3 — bounds on drift_score and confidence -/

theorem weightedScore_nonneg (results : List (String × MethodResult))
    (h : ∀ p ∈ results, 0 ≤ p.2.drift_score) : 0 ≤ weightedScore results := by
  induction results with
  | nil => simp [weightedScore]
  | cons p rest ih =>
    have hp := h p (List.mem_cons_self p rest)
    have hr := ih (fun q hq => h q (List.mem_cons_of_mem p hq))
    have hw := le_of_lt (methodWeight_pos p.1)
    simpa [weightedScore] using add_nonneg (mul_nonneg hp hw) hr

theorem totalWeight_nonneg (results : List (String × MethodResult)) :
    0 ≤ totalWeight results := by
  induction results with
  | nil => simp [totalWeight]
  | cons p rest ih =>
    simpa [totalWeight] using add_nonneg (le_of_lt (methodWeight_pos p.1)) ih

/-- C3, counterexample.  PSI (count-based, lines 107–111) is unbounded; run
under an environment where it yields 5 for the single shared column, the
`DriftResult` returned by `detect_drift` has
`drift_score = (5 * 0.25) / 0.9 = 25/18 > 1`, refuting the claimed
`drift_score ∈ [0, 1]`.  (`confidence = min(25/18, 1) = 1` still holds.) -/
theorem drift_score_unit_range_counterexample :
    dEx.detect_drift envPsiBig dfEx dfEx none = .ok rPsiBig ∧
    ¬ rPsiBig.drift_score ≤ 1 := by
  constructor
  · simp [MultiModalDriftDetector.detect_drift, ks_test_drift, ks_test_loop,
      psi_drift, psi_loop, mmd_drift, isolation_forest_drift, covariance_drift,
      MultiModalDriftDetector.ensemble_detection, driftVotes, weightedScore, totalWeight,
      featuresAffected, setUpdate, determine_drift_type, lookupRes, envPsiBig, envOk,
      dfEx, dEx, DataFrame.lookup, dropna, numericDtype, listMax, rPsiBig, resultsPsiBig,
      bind, Except.bind, pure, Except.pure, List.find?, methodWeight]
    norm_num
  · norm_num [rPsiBig]

/-- C3, amended.  Provided every per-method `drift_score` is nonnegative (true
of every detector: KS statistics, PSI as computed here, MMD, anomaly/outlier
ratios and AUC are all ≥ 0), the ensemble `drift_score` is ≥ 0 but is **not**
bounded by 1 (PSI is unbounded); `confidence = min(drift_score, 1.0)` holds
unconditionally and hence `confidence ∈ [0, 1]`. -/
theorem confidence_invariant_amended (results : List (String × MethodResult))
    (h : ∀ p ∈ results, 0 ≤ p.2.drift_score)
    (d : MultiModalDriftDetector) (ref cur : DataFrame) :
    (d.ensemble_detection results ref cur).confidence
        = min (d.ensemble_detection results ref cur).drift_score 1 ∧
    0 ≤ (d.ensemble_detection results ref cur).drift_score ∧
    0 ≤ (d.ensemble_detection results ref cur).confidence ∧
    (d.ensemble_detection results ref cur).confidence ≤ 1 := by
  have hscore : (0 : ℚ) ≤ (d.ensemble_detection results ref cur).drift_score := by
    show (0 : ℚ) ≤ (if totalWeight results > 0 then
        weightedScore results / totalWeight results else 0)
    split_ifs with htw
    · exact div_nonneg (weightedScore_nonneg results h) (le_of_lt htw)
    · exact le_refl 0
  refine ⟨rfl, hscore, ?_, ?_⟩
  · exact le_min hscore (by norm_num)
  · exact min_le_right _ _

/-- C3, witness: the no-drift results dictionary `resultsOkEx`. -/
theorem confidence_invariant_amended_witness :
    (dEx.ensemble_detection resultsOkEx dfEx dfEx).confidence
        = min (dEx.ensemble_detection resultsOkEx dfEx dfEx).drift_score 1 ∧
    0 ≤ (dEx.ensemble_detection resultsOkEx dfEx dfEx).drift_score ∧
    0 ≤ (dEx.ensemble_detection resultsOkEx dfEx dfEx).confidence ∧
    (dEx.ensemble_detection resultsOkEx dfEx dfEx).confidence ≤ 1 :=
  confidence_invariant_amended resultsOkEx
    (by intro p hp
        simp only [resultsOkEx, List.mem_cons, List.not_mem_nil, or_false] at hp
        rcases hp with h | h | h | h | h <;> subst h <;> norm_num)
    dEx dfEx dfEx

/-! ### C4 — the ensemble weights and the configuration -/

/-- C4, counterexample.  The stored detector configuration is never read by the
aggregator: with a configuration mapping `psi` to weight 0, two results
dictionaries differing only in the `psi` vote flip `ensemble_drift` between
true (votes 0.2 + 0.25 + 0.2 = 0.65) and false (votes 0.4) — the
zero-configured method still contributes its `drift_detected` flag, refuting the
claimed weight-masking. -/
theorem weight_config_masking_counterexample :
    dPsiZero.config = [("psi", 0)] ∧
    rsVotesA = [("ks_test", votedRes "ks_test" true), ("psi", votedRes "psi" true),
                ("mmd", votedRes "mmd" true)] ∧
    rsVotesB = [("ks_test", votedRes "ks_test" true), ("psi", votedRes "psi" false),
                ("mmd", votedRes "mmd" true)] ∧
    (dPsiZero.ensemble_detection rsVotesA dfEx dfEx).drift_detected = true ∧
    (dPsiZero.ensemble_detection rsVotesB dfEx dfEx).drift_detected = false := by
  refine ⟨rfl, rfl, rfl, ?_, ?_⟩ <;>
    simp [MultiModalDriftDetector.ensemble_detection, rsVotesA, rsVotesB, votedRes,
          driftVotes, methodWeight] <;>
    norm_num

/-- C4, amended.  The ensemble weights are **not** configurable: the stored
`config` is never read, so any two detectors produce identical ensemble
results; the hard-coded weights are ks_test 0.20, psi 0.25, mmd 0.20,
isolation_forest 0.15, covariance_drift 0.10, classifier_drift 0.10, and any
unknown method name defaults to weight 0.1. -/
theorem ensemble_weights_fixed_amended (d d' : MultiModalDriftDetector)
    (results : List (String × MethodResult)) (ref cur : DataFrame) :
    d.ensemble_detection results ref cur = d'.ensemble_detection results ref cur ∧
    methodWeight "ks_test" = 1/5 ∧ methodWeight "psi" = 1/4 ∧ methodWeight "mmd" = 1/5 ∧
    methodWeight "isolation_forest" = 3/20 ∧ methodWeight "covariance_drift" = 1/10 ∧
    methodWeight "classifier_drift" = 1/10 ∧
    ∀ m : String, m ∉ (["ks_test", "psi", "mmd", "isolation_forest",
        "covariance_drift", "classifier_drift"] : List String) → methodWeight m = 1/10 := by
  refine ⟨rfl, by simp [methodWeight], by simp [methodWeight], by simp [methodWeight],
          by simp [methodWeight], by simp [methodWeight], by simp [methodWeight], ?_⟩
  intro m hm
  simp only [List.mem_cons, List.not_mem_nil, or_false, not_or] at hm
  obtain ⟨h1, h2, h3, h4, h5, h6⟩ := hm
  simp [methodWeight, h1, h2, h3, h4, h5, h6]

/-- C4, witness: two concrete detectors with different configurations and an
unknown method name. -/
theorem ensemble_weights_fixed_amended_witness :
    ("unknown_method" : String) ∉ (["ks_test", "psi", "mmd", "isolation_forest",
        "covariance_drift", "classifier_drift"] : List String) ∧
    methodWeight "unknown_method" = 1/10 ∧
    dEx.ensemble_detection rsVotesA dfEx dfEx = dPsiZero.ensemble_detection rsVotesA dfEx dfEx :=
  ⟨by decide,
   (ensemble_weights_fixed_amended dEx dPsiZero rsVotesA dfEx dfEx).2.2.2.2.2.2.2
     "unknown_method" (by decide),
   (ensemble_weights_fixed_amended dEx dPsiZero rsVotesA dfEx dfEx).1⟩

/-! ### C2 — per-method exception handling -/

/-- C2, counterexample.  `_isolation_forest_drift` has no try/except at all:
when the isolation-forest fitting routine raises (scikit-learn raises e.g. on
NaN-containing input or a degenerate matrix), the exception escapes
`detect_drift` instead of being converted into a zero-score result — the run
does not continue with the remaining methods. -/
theorem method_exception_escape_counterexample :
    dEx.detect_drift envIsoFail dfEx dfEx none = .error (.generic "singular matrix") := by
  simp [MultiModalDriftDetector.detect_drift, ks_test_drift, ks_test_loop,
        psi_drift, psi_loop, mmd_drift, isolation_forest_drift, envIsoFail, envOk,
        dfEx, dEx, DataFrame.lookup, dropna, numericDtype, bind, Except.bind,
        List.find?]

/-- C2, amended.  Only `_covariance_drift` and `_classifier_drift` catch every
exception from their fitting routines (returning a zero-score result with
`error = str(e)`); `_mmd_drift` catches `ImportError` alone (returning the
annotated zero-score result) and lets every other exception propagate; and
`_ks_test_drift`, `_psi_drift` and `_isolation_forest_drift` catch nothing, so
an exception raised by their statistical routines (here exercised on the
one-numeric-column dataframe `dfEx`, on which the KS and PSI kernels are
reached) propagates out of `detect_drift`. -/
theorem method_exception_catching_amended (reference current : DataFrame)
    (e : Exc) (t : String) :
    covariance_drift (fun _ _ => .error e) reference current =
      { method := "covariance_drift", drift_detected := false, drift_score := 0,
        error := some e.str } ∧
    classifier_drift (fun _ _ _ => .error e) reference current t =
      { method := "classifier_drift", drift_detected := false, drift_score := 0,
        error := some e.str } ∧
    mmd_drift (fun _ _ => .error .importError) reference current =
      .ok { method := "mmd", drift_detected := false, drift_score := 0,
            error := some "scikit-learn not available" } ∧
    (e ≠ .importError → mmd_drift (fun _ _ => .error e) reference current = .error e) ∧
    isolation_forest_drift (fun _ _ => .error e) reference current = .error e ∧
    ks_test_drift (fun _ _ => .error e) dfEx dfEx = .error e ∧
    psi_drift (fun _ _ => .error e) dfEx dfEx = .error e ∧
    dEx.detect_drift { envOk with ks2samp := fun _ _ => .error e } dfEx dfEx none
      = .error e ∧
    dEx.detect_drift { envOk with psiScore := fun _ _ => .error e } dfEx dfEx none
      = .error e := by
  refine ⟨rfl, rfl, rfl, ?_, rfl, ?_, ?_, ?_, ?_⟩
  · intro hne
    cases e with
    | importError => exact absurd rfl hne
    | keyError s => rfl
    | generic s => rfl
  all_goals
    simp [MultiModalDriftDetector.detect_drift, ks_test_drift, ks_test_loop,
          psi_drift, psi_loop, envOk, dfEx, dEx, DataFrame.lookup, dropna,
          numericDtype, bind, Except.bind, List.find?]

/-- C2, witness: a concrete non-ImportError exception. -/
theorem method_exception_catching_amended_witness :
    Exc.generic "singular matrix" ≠ Exc.importError ∧
    mmd_drift (fun _ _ => .error (Exc.generic "singular matrix")) dfEx dfEx =
      .error (Exc.generic "singular matrix") :=
  ⟨by decide,
   (method_exception_catching_amended dfEx dfEx (Exc.generic "singular matrix") "t").2.2.2.1
     (by decide)⟩

/-! ### C6 — column matching between reference and current -/

theorem lookup_append_single (current : DataFrame) (name n : String) (col : Column)
    (hne : ¬ n = name) :
    DataFrame.lookup ⟨current.cols ++ [(name, col)]⟩ n = current.lookup n := by
  have hbeq : (name == n) = false := by
    simp only [beq_eq_false_iff_ne, ne_eq]
    exact fun h => hne h.symm
  simp [DataFrame.lookup, List.find?_append, List.find?, hbeq]

theorem ks_test_loop_ok (f : List ℚ → List ℚ → Except Exc (ℚ × ℚ)) (current : DataFrame)
    (cols : List (String × Column))
    (h : ∀ p ∈ cols, numericDtype p.2.dtype = true → (current.lookup p.1).isSome = true)
    (hf : ∀ a b, ∃ v, f a b = .ok v) :
    ∃ v, ks_test_loop f current cols = .ok v := by
  induction cols with
  | nil => exact ⟨([], []), rfl⟩
  | cons p rest ih =>
    obtain ⟨v, hv⟩ := ih (fun q hq => h q (List.mem_cons_of_mem p hq))
    obtain ⟨name, col⟩ := p
    by_cases hn : numericDtype col.dtype = true
    · have hsome := h (name, col) (List.mem_cons_self _ _) hn
      obtain ⟨c, hc⟩ := Option.isSome_iff_exists.mp hsome
      obtain ⟨sp, hsp⟩ := hf (dropna col.values) (dropna c.values)
      refine ⟨((name, sp.1) :: v.1, (name, sp.2) :: v.2), ?_⟩
      simp [ks_test_loop, hn, hc, hsp, hv]
    · refine ⟨v, ?_⟩
      simp [ks_test_loop, hn, hv]

theorem psi_loop_ok (g : List ℚ → List ℚ → Except Exc ℚ) (current : DataFrame)
    (cols : List (String × Column))
    (h : ∀ p ∈ cols, numericDtype p.2.dtype = true → (current.lookup p.1).isSome = true)
    (hg : ∀ a b, ∃ v, g a b = .ok v) :
    ∃ v, psi_loop g current cols = .ok v := by
  induction cols with
  | nil => exact ⟨[], rfl⟩
  | cons p rest ih =>
    obtain ⟨v, hv⟩ := ih (fun q hq => h q (List.mem_cons_of_mem p hq))
    obtain ⟨name, col⟩ := p
    by_cases hn : numericDtype col.dtype = true
    · have hsome := h (name, col) (List.mem_cons_self _ _) hn
      obtain ⟨c, hc⟩ := Option.isSome_iff_exists.mp hsome
      obtain ⟨sc, hsc⟩ := hg (dropna col.values) (dropna c.values)
      exact ⟨(name, sc) :: v, by simp [psi_loop, hn, hc, hsc, hv]⟩
    · exact ⟨v, by simp [psi_loop, hn, hv]⟩

theorem ks_test_loop_append (f : List ℚ → List ℚ → Except Exc (ℚ × ℚ)) (current : DataFrame)
    (name : String) (col : Column) (cols : List (String × Column))
    (h : ∀ p ∈ cols, ¬ p.1 = name) :
    ks_test_loop f ⟨current.cols ++ [(name, col)]⟩ cols = ks_test_loop f current cols := by
  induction cols with
  | nil => rfl
  | cons p rest ih =>
    obtain ⟨n, c⟩ := p
    have hne : ¬ n = name := h (n, c) (List.mem_cons_self _ _)
    have hrest := ih (fun q hq => h q (List.mem_cons_of_mem _ hq))
    simp only [ks_test_loop, lookup_append_single current name n col hne, hrest]

theorem psi_loop_append (g : List ℚ → List ℚ → Except Exc ℚ) (current : DataFrame)
    (name : String) (col : Column) (cols : List (String × Column))
    (h : ∀ p ∈ cols, ¬ p.1 = name) :
    psi_loop g ⟨current.cols ++ [(name, col)]⟩ cols = psi_loop g current cols := by
  induction cols with
  | nil => rfl
  | cons p rest ih =>
    obtain ⟨n, c⟩ := p
    have hne : ¬ n = name := h (n, c) (List.mem_cons_self _ _)
    have hrest := ih (fun q hq => h q (List.mem_cons_of_mem _ hq))
    simp only [psi_loop, lookup_append_single current name n col hne, hrest]

/-- C6, counterexample.  Both `_ks_test_drift` and `_psi_drift` iterate over
`reference.columns` and index `current[column]` without checking membership:
a numeric reference column absent from the current dataset raises a pandas
`KeyError`, which nothing catches, so `detect_drift` raises — unmatched
reference columns are not "ignored". -/
theorem unmatched_column_keyerror_counterexample :
    ks_test_drift envOk.ks2samp refOnly curNone = .error (.keyError "a") ∧
    psi_drift envOk.psiScore refOnly curNone = .error (.keyError "a") ∧
    dEx.detect_drift envOk refOnly curNone none = .error (.keyError "a") := by
  refine ⟨?_, ?_, ?_⟩ <;>
    simp [MultiModalDriftDetector.detect_drift, ks_test_drift, ks_test_loop,
          psi_drift, psi_loop, envOk, refOnly, curNone, dEx, DataFrame.lookup,
          dropna, numericDtype, bind, Except.bind, List.find?]

/-- C6, amended.  The column asymmetry is the converse of the claim: columns
present in the **current** dataset but absent from the reference are ignored
(appending a column whose name the reference does not use leaves the results
of both per-column detectors unchanged — whether they succeed or raise); a
numeric reference column missing from current raises `KeyError` (see the
counterexample); and when every numeric reference column also exists in the
current dataset **and** the per-column statistical kernels succeed on the
matched values, both detectors complete without raising — an exception raised
by the kernels themselves (e.g. scipy `ks_2samp` on an empty dropna result)
still propagates, per amended C2. -/
theorem column_matching_amended (f : List ℚ → List ℚ → Except Exc (ℚ × ℚ))
    (g : List ℚ → List ℚ → Except Exc ℚ) (reference current : DataFrame)
    (hcov : ∀ p ∈ reference.cols, numericDtype p.2.dtype = true →
      (current.lookup p.1).isSome = true)
    (hf : ∀ a b, ∃ v, f a b = .ok v) (hg : ∀ a b, ∃ v, g a b = .ok v) :
    (∃ r, ks_test_drift f reference current = .ok r) ∧
    (∃ r, psi_drift g reference current = .ok r) ∧
    ∀ (name : String) (col : Column), (∀ p ∈ reference.cols, ¬ p.1 = name) →
      ks_test_drift f reference ⟨current.cols ++ [(name, col)]⟩
        = ks_test_drift f reference current ∧
      psi_drift g reference ⟨current.cols ++ [(name, col)]⟩
        = psi_drift g reference current := by
  refine ⟨?_, ?_, ?_⟩
  · obtain ⟨⟨ss, ps⟩, hv⟩ := ks_test_loop_ok f current reference.cols hcov hf
    exact ⟨_, by unfold ks_test_drift; rw [hv]⟩
  · obtain ⟨v, hv⟩ := psi_loop_ok g current reference.cols hcov hg
    exact ⟨_, by unfold psi_drift; rw [hv]⟩
  · intro name col hfresh
    constructor
    · unfold ks_test_drift
      rw [ks_test_loop_append f current name col reference.cols hfresh]
    · unfold psi_drift
      rw [psi_loop_append g current name col reference.cols hfresh]

/-- C6, witness: the one-column dataframe against itself, extended on the
current side by a fresh column `b`. -/
theorem column_matching_amended_witness :
    (∃ r, ks_test_drift envOk.ks2samp dfEx dfEx = .ok r) ∧
    (∃ r, psi_drift envOk.psiScore dfEx dfEx = .ok r) ∧
    (ks_test_drift envOk.ks2samp dfEx ⟨dfEx.cols ++ [("b", colEx)]⟩
       = ks_test_drift envOk.ks2samp dfEx dfEx ∧
     psi_drift envOk.psiScore dfEx ⟨dfEx.cols ++ [("b", colEx)]⟩
       = psi_drift envOk.psiScore dfEx dfEx) := by
  have h := column_matching_amended envOk.ks2samp envOk.psiScore dfEx dfEx
    (by intro p hp hn
        simp only [dfEx, List.mem_cons, List.not_mem_nil, or_false] at hp
        subst hp
        rfl)
    (fun a b => ⟨(0, 1), rfl⟩) (fun a b => ⟨0, rfl⟩)
  exact ⟨h.1, h.2.1, h.2.2 "b" colEx
    (by intro p hp
        simp only [dfEx, List.mem_cons, List.not_mem_nil, or_false] at hp
        subst hp
        decide)⟩

/-! ### Structure of every successful `detect_drift` run -/

theorem determine_drift_type_eq_claim (results : List (String × MethodResult))
    (ref cur : DataFrame) :
    determine_drift_type results ref cur = claimDriftType results := by
  simp [determine_drift_type, claimDriftType, methodFlag, List.any_cons, List.any_nil,
        Bool.or_assoc, Bool.or_false]

/-- Any successful `detect_drift` run records its per-method results under the
single metadata key `individual_results`; the classifier result is present in
them exactly when the target column is truthy, and the drift-type label is
the four-way classification of those results stated by the spec. -/
theorem detect_drift_ok_spec (d : MultiModalDriftDetector) (env : Env)
    (reference current : DataFrame) (target_column : Option String) (r : DriftResult)
    (h : d.detect_drift env reference current target_column = .ok r) :
    ∃ results, r.metadata = [("individual_results", results)] ∧
      (lookupRes results "classifier_drift").isSome = pyTruthy target_column ∧
      r.drift_type = claimDriftType results := by
  cases target_column with
  | none =>
    unfold MultiModalDriftDetector.detect_drift at h
    simp only [bind, Except.bind, pure, Except.pure] at h
    split at h
    · exact absurd h (by simp)
    split at h
    · exact absurd h (by simp)
    split at h
    · exact absurd h (by simp)
    split at h
    · exact absurd h (by simp)
    rw [Except.ok.injEq] at h
    subst h
    refine ⟨_, rfl, ?_, ?_⟩
    · simp [lookupRes, List.find?, pyTruthy]
    · exact determine_drift_type_eq_claim _ reference current
  | some t =>
    by_cases ht : t.isEmpty
    all_goals
      unfold MultiModalDriftDetector.detect_drift at h
      simp only [bind, Except.bind, pure, Except.pure, ht, if_true, if_false] at h
      split at h
      · exact absurd h (by simp)
      split at h
      · exact absurd h (by simp)
      split at h
      · exact absurd h (by simp)
      split at h
      · exact absurd h (by simp)
      rw [Except.ok.injEq] at h
      subst h
      refine ⟨_, rfl, ?_, ?_⟩
      · simp [lookupRes, List.find?, pyTruthy, ht]
      · exact determine_drift_type_eq_claim _ reference current

theorem claimDriftType_no_classifier (results : List (String × MethodResult))
    (h : methodFlag results "classifier_drift" = false) :
    claimDriftType results = "no_drift" ∨ claimDriftType results = "covariate_drift" := by
  unfold claimDriftType
  rw [h]
  cases hc : (methodFlag results "ks_test" || methodFlag results "psi"
      || methodFlag results "mmd") <;> simp

/-! ### C5 — drift-type classification -/

/-- C5, confirmed.  Every successful `detect_drift` run labels its result by
the claimed rule over the recorded per-method results: covariate component =
any of ks_test/psi/mmd detected, concept component = the classifier detector
ran (it is recorded iff the supplied target column is truthy, and with no
target column it is absent) and detected; both → covariate_and_concept_drift,
only covariate → covariate_drift, only concept → concept_drift, neither →
no_drift (`claimDriftType`). -/
theorem drift_type_classification (d : MultiModalDriftDetector) (env : Env)
    (reference current : DataFrame) (target_column : Option String) (r : DriftResult)
    (h : d.detect_drift env reference current target_column = .ok r) :
    ∃ results, r.metadata = [("individual_results", results)] ∧
      (lookupRes results "classifier_drift").isSome = pyTruthy target_column ∧
      (target_column = none → lookupRes results "classifier_drift" = none) ∧
      r.drift_type = claimDriftType results := by
  obtain ⟨results, hm, hc, ht⟩ :=
    detect_drift_ok_spec d env reference current target_column r h
  refine ⟨results, hm, hc, ?_, ht⟩
  intro htc
  subst htc
  cases hl : lookupRes results "classifier_drift" with
  | none => rfl
  | some q => rw [hl] at hc; simp [pyTruthy] at hc

/-- C5, witness: the successful run of `envOk` on `(dfEx, dfEx)` with no
target column. -/
theorem drift_type_classification_witness :
    ∃ results, rEx.metadata = [("individual_results", results)] ∧
      (lookupRes results "classifier_drift").isSome = pyTruthy none ∧
      ((none : Option String) = none → lookupRes results "classifier_drift" = none) ∧
      rEx.drift_type = claimDriftType results :=
  drift_type_classification dEx envOk dfEx dfEx none rEx (by
    simp [MultiModalDriftDetector.detect_drift, ks_test_drift, ks_test_loop,
      psi_drift, psi_loop, mmd_drift, isolation_forest_drift, covariance_drift,
      MultiModalDriftDetector.ensemble_detection, driftVotes, weightedScore, totalWeight,
      featuresAffected, setUpdate, determine_drift_type, lookupRes, envOk, dfEx, dEx,
      DataFrame.lookup, dropna, numericDtype, listMax, rEx, resultsOkEx,
      bind, Except.bind, pure, Except.pure, List.find?, methodWeight]
    norm_num)

/-! ### C10 — the service never passes a target column -/

/-- C10, confirmed.  `DriftDetectionService.detect_drift` invokes the detector
without a target column (line 70), so the classifier detector never runs
through the service and the response field `drift_type` is never `concept_drift`
nor `covariate_and_concept_drift`. -/
theorem service_no_concept_drift (env : Env) (detector : MultiModalDriftDetector)
    (reference_df current_df : DataFrame) (resp : DriftDetectionResponse)
    (h : service_detect_drift env detector reference_df current_df = .ok resp) :
    resp.drift_type = "no_drift" ∨ resp.drift_type = "covariate_drift" := by
  unfold service_detect_drift at h
  simp only [bind, Except.bind, pure, Except.pure] at h
  split at h
  · exact absurd h (by simp)
  case _ result hres =>
    rw [Except.ok.injEq] at h
    subst h
    obtain ⟨results, hm, hc, ht⟩ :=
      detect_drift_ok_spec detector env reference_df current_df none result hres
    have hflag : methodFlag results "classifier_drift" = false := by
      unfold methodFlag
      cases hl : lookupRes results "classifier_drift" with
      | none => rfl
      | some q => rw [hl] at hc; simp [pyTruthy] at hc
    show result.drift_type = "no_drift" ∨ result.drift_type = "covariate_drift"
    rw [ht]
    exact claimDriftType_no_classifier results hflag

/-- C10, witness: the service run under `envOk` on `(dfEx, dfEx)`. -/
theorem service_no_concept_drift_witness :
    respEx.drift_type = "no_drift" ∨ respEx.drift_type = "covariate_drift" :=
  service_no_concept_drift envOk dEx dfEx dfEx respEx (by
    simp [service_detect_drift, MultiModalDriftDetector.detect_drift, ks_test_drift,
      ks_test_loop, psi_drift, psi_loop, mmd_drift, isolation_forest_drift,
      covariance_drift, MultiModalDriftDetector.ensemble_detection, driftVotes,
      weightedScore, totalWeight, featuresAffected, setUpdate, determine_drift_type,
      lookupRes, envOk, dfEx, dEx, DataFrame.lookup, dropna, numericDtype, listMax,
      respEx, generate_recommendation, bind, Except.bind, pure, Except.pure,
      List.find?, methodWeight]
    norm_num)

/-! ### C7 — the recommendation string -/

set_option maxRecDepth 40000 in
/-- C7, counterexample.  On a detected covariate-drift result with
`drift_score = 0.9 > 0.8` the urgency sentence is **appended** after the
retrain message (the source appends it to the `recommendations` list after
the drift-type messages, lines 156–159), not prepended: the returned string
does not start with it. -/
theorem recommendation_urgency_position_counterexample :
    generate_recommendation rC7 =
      "Retrain model with new data distribution. 1 features affected. | URGENT: Significant drift detected. Consider immediate model retraining and evaluation. | Focus on features: a" ∧
    List.isPrefixOf "URGENT".data (generate_recommendation rC7).data = false := by
  have hscore : ((9 : ℚ)/10 > 4/5) := by norm_num
  have hc1 : strContains "covariate_drift" "covariate_drift" = true := by decide
  have hc2 : strContains "concept_drift" "covariate_drift" = false := by decide
  have heq : generate_recommendation rC7 =
      "Retrain model with new data distribution. 1 features affected. | URGENT: Significant drift detected. Consider immediate model retraining and evaluation. | Focus on features: a" := by
    simp only [generate_recommendation, rC7, hc1, hc2, hscore, Bool.not_true,
      Bool.false_eq_true, if_false, if_true, eq_true hscore]
    decide
  exact ⟨heq, by rw [heq]; decide⟩

/-- C7, amended.  On the four labels `_determine_drift_type` can produce,
`generate_recommendation` follows the fixed rules of `recommendation_spec`:
the rules fire only when `drift_detected` is true (otherwise the no-action
message is returned regardless of the label); the label `covariate_drift`
yields the retrain message naming `len(features_affected)`;
`concept_drift` **and** the combined label yield the update message, the
combined label yielding no retrain message (the substring test
`"covariate_drift" in "covariate_and_concept_drift"` is false); the urgency
sentence is appended after the type messages when `drift_score > 0.8`; the
at-most-5 affected feature names are appended last when nonempty; with no
applicable rule the string is "Monitor closely.". -/
theorem generate_recommendation_amended (r : DriftResult)
    (h : r.drift_type = "no_drift" ∨ r.drift_type = "covariate_drift" ∨
         r.drift_type = "concept_drift" ∨ r.drift_type = "covariate_and_concept_drift") :
    generate_recommendation r = recommendation_spec r := by
  have c1 : strContains "covariate_drift" "no_drift" = false := by decide
  have c2 : strContains "concept_drift" "no_drift" = false := by decide
  have c3 : strContains "covariate_drift" "covariate_drift" = true := by decide
  have c4 : strContains "concept_drift" "covariate_drift" = false := by decide
  have c5 : strContains "covariate_drift" "concept_drift" = false := by decide
  have c6 : strContains "concept_drift" "concept_drift" = true := by decide
  have c7 : strContains "covariate_drift" "covariate_and_concept_drift" = false := by decide
  have c8 : strContains "concept_drift" "covariate_and_concept_drift" = true := by decide
  unfold generate_recommendation recommendation_spec
  rcases h with h | h | h | h <;> rw [h] <;>
    cases hd : r.drift_detected <;>
    by_cases hs : (4/5 : ℚ) < r.drift_score <;>
    cases hf : r.features_affected.isEmpty <;>
    simp [c1, c2, c3, c4, c5, c6, c7, c8, hs, hf]

/-- C7, witness: a detected concept-drift result with a low score and no
affected features. -/
theorem generate_recommendation_amended_witness :
    (rW7.drift_type = "no_drift" ∨ rW7.drift_type = "covariate_drift" ∨
     rW7.drift_type = "concept_drift" ∨ rW7.drift_type = "covariate_and_concept_drift") ∧
    generate_recommendation rW7 = recommendation_spec rW7 :=
  ⟨Or.inr (Or.inr (Or.inl rfl)),
   generate_recommendation_amended rW7 (Or.inr (Or.inr (Or.inl rfl)))⟩

end DriftDetection
